import Mathlib

/-!
# Access-controlling proxy for a smart light bulb (`proxy.cpp`)

Shallow embedding of the single translation unit `proxy.cpp`.

* `std::string` values are Lean `String`s; `!=` on them is exact comparison.
* `cout` is the character stream written so far; `<<` appends to it and `endl`
  appends a newline.
* A member function takes the object and the stream and gives back a `Step`:
  how it completed (`returned` or `thrown`), the object afterwards and the
  stream afterwards.  A `throw` completes the function at once with the object
  and stream as they are at that point.
-/

namespace Proxy

/-! ## Exceptions -/

/-- The exception classes the program names: `runtime_error` is thrown by
`checkAccess`, `exception` is the class of the handler in `main`. -/
inductive ExceptionClass where
  | exception
  | runtime_error
  deriving DecidableEq

/-- The relation "is the class, or publicly derives from it" of the standard
library: `runtime_error` derives from `exception`. -/
def ExceptionClass.derivesFrom : ExceptionClass → ExceptionClass → Bool
  | _, .exception => true
  | .runtime_error, .runtime_error => true
  | .exception, .runtime_error => false

/-- An exception object in flight: its dynamic class and the text `what()` returns. -/
structure Exception where
  cls : ExceptionClass
  what : String
  deriving DecidableEq

/-- The expression `runtime_error(msg)`. -/
def runtime_error (msg : String) : Exception :=
  { cls := ExceptionClass.runtime_error, what := msg }

/-- How a call completed. -/
inductive Outcome (α : Type) where
  | returned (a : α)
  | thrown (e : Exception)
  deriving DecidableEq

/-- The result of running a member function on an object of type `σ`. -/
structure Step (σ : Type) (α : Type) where
  outcome : Outcome α
  self : σ
  cout : String
  deriving DecidableEq

/-- The manipulator `endl` writes a newline (and flushes). -/
def endl : String := "\n"

/-! ## `class LightBulb` -/

/-- The real device: a smart bulb bound to a location. -/
structure LightBulb where
  location : String
  deriving DecidableEq

/-- The constructor `LightBulb(string loc) : location(loc)`. -/
def LightBulb.ctor (loc : String) : LightBulb :=
  { location := loc }

/-- The method `LightBulb::turnOn`. -/
def LightBulb.turnOn (self : LightBulb) (cout : String) : Step LightBulb Unit :=
  { outcome := Outcome.returned (),
    self := self,
    cout := cout ++ "Lâmpada em " ++ self.location ++ " ligada!" ++ endl }

/-- The method `LightBulb::turnOff`. -/
def LightBulb.turnOff (self : LightBulb) (cout : String) : Step LightBulb Unit :=
  { outcome := Outcome.returned (),
    self := self,
    cout := cout ++ "Lâmpada em " ++ self.location ++ " desligada!" ++ endl }

/-! ## `class DeviceProxy` -/

/-- The proxy: it owns the bulb (`unique_ptr<LightBulb>` made by `make_unique`,
so never null), the role of the user and the simulated network flag. -/
structure DeviceProxy where
  realBulb : LightBulb
  userRole : String
  isNetworkAvailable : Bool
  deriving DecidableEq

/-- The constructor `DeviceProxy(string loc, string role)`. -/
def DeviceProxy.ctor (loc role : String) : DeviceProxy :=
  { realBulb := LightBulb.ctor loc, userRole := role, isNetworkAvailable := true }

/-- The method `DeviceProxy::checkAccess`. -/
def DeviceProxy.checkAccess (self : DeviceProxy) (cout : String) : Step DeviceProxy Unit :=
  if self.userRole != "Admin" then
    { outcome := Outcome.thrown (runtime_error "Acesso negado: usuário não é Admin!"),
      self := self, cout := cout }
  else if !self.isNetworkAvailable then
    { outcome := Outcome.thrown (runtime_error "Erro de conexão com a lâmpada!"),
      self := self, cout := cout }
  else
    { outcome := Outcome.returned (), self := self, cout := cout }

/-- The method `DeviceProxy::logAction`. -/
def DeviceProxy.logAction (self : DeviceProxy) (action : String) (cout : String) :
    Step DeviceProxy Unit :=
  { outcome := Outcome.returned (),
    self := self,
    cout := cout ++ "[LOG] Ação '" ++ action ++ "' registrada." ++ endl }

/-- The call `realBulb->f()` made from inside the proxy: `f` runs on the owned
bulb, and an exception leaving it leaves the calling method too. -/
def DeviceProxy.onRealBulb (f : LightBulb → String → Step LightBulb Unit)
    (self : DeviceProxy) (cout : String) : Step DeviceProxy Unit :=
  let s := f self.realBulb cout
  { outcome := s.outcome, self := { self with realBulb := s.self }, cout := s.cout }

/-- The method `DeviceProxy::turnOn`: three statements in sequence, each run only
if the one before returned. -/
def DeviceProxy.turnOn (self : DeviceProxy) (cout : String) : Step DeviceProxy Unit :=
  let s1 := DeviceProxy.checkAccess self cout
  match s1.outcome with
  | Outcome.thrown e => { outcome := Outcome.thrown e, self := s1.self, cout := s1.cout }
  | Outcome.returned () =>
    let s2 := DeviceProxy.onRealBulb LightBulb.turnOn s1.self s1.cout
    match s2.outcome with
    | Outcome.thrown e => { outcome := Outcome.thrown e, self := s2.self, cout := s2.cout }
    | Outcome.returned () => DeviceProxy.logAction s2.self "Ligar" s2.cout

/-- The method `DeviceProxy::turnOff`. -/
def DeviceProxy.turnOff (self : DeviceProxy) (cout : String) : Step DeviceProxy Unit :=
  let s1 := DeviceProxy.checkAccess self cout
  match s1.outcome with
  | Outcome.thrown e => { outcome := Outcome.thrown e, self := s1.self, cout := s1.cout }
  | Outcome.returned () =>
    let s2 := DeviceProxy.onRealBulb LightBulb.turnOff s1.self s1.cout
    match s2.outcome with
    | Outcome.thrown e => { outcome := Outcome.thrown e, self := s2.self, cout := s2.cout }
    | Outcome.returned () => DeviceProxy.logAction s2.self "Desligar" s2.cout

/-! ## `main` -/

/-- The function `main`, started on the stream `cout`; the result is how the
program completed (the exit code when it returned, the exception when one left
`main`) and the final stream. -/
def main (cout : String) : Outcome Int × String :=
  -- try { auto livingRoomLight = ...; livingRoomLight->turnOn(); }
  let livingRoomLight := DeviceProxy.ctor "Sala" "Convidado"
  let t := DeviceProxy.turnOn livingRoomLight cout
  -- catch (const exception &e) { cout << "Erro: " << e.what() << endl; }
  let afterTry : Outcome Unit × String :=
    match t.outcome with
    | Outcome.returned () => (Outcome.returned (), t.cout)
    | Outcome.thrown e =>
      if e.cls.derivesFrom ExceptionClass.exception then
        (Outcome.returned (), t.cout ++ "Erro: " ++ e.what ++ endl)
      else
        (Outcome.thrown e, t.cout)
  match afterTry with
  | (Outcome.thrown e, cout1) => (Outcome.thrown e, cout1)
  | (Outcome.returned (), cout1) =>
    let bedroomLight := DeviceProxy.ctor "Quarto" "Admin"
    let s1 := DeviceProxy.turnOn bedroomLight cout1
    match s1.outcome with
    | Outcome.thrown e => (Outcome.thrown e, s1.cout)
    | Outcome.returned () =>
      let s2 := DeviceProxy.turnOff s1.self s1.cout
      match s2.outcome with
      | Outcome.thrown e => (Outcome.thrown e, s2.cout)
      | Outcome.returned () => (Outcome.returned 0, s2.cout)

/-! ## The two failures of the access check and the lines written -/

/-- The exception `checkAccess` throws when the role is not `"Admin"`. -/
def AccessDenied : Exception :=
  runtime_error "Acesso negado: usuário não é Admin!"

/-- The exception `checkAccess` throws when the network flag is false. -/
def ConnectivityError : Exception :=
  runtime_error "Erro de conexão com a lâmpada!"

/-- The two lines a successful `turnOn` on a bulb at `loc` writes. -/
def linesOn (loc : String) : String :=
  "Lâmpada em " ++ loc ++ " ligada!" ++ "\n" ++ ("[LOG] Ação 'Ligar' registrada." ++ "\n")

/-- The two lines a successful `turnOff` on a bulb at `loc` writes. -/
def linesOff (loc : String) : String :=
  "Lâmpada em " ++ loc ++ " desligada!" ++ "\n" ++ ("[LOG] Ação 'Desligar' registrada." ++ "\n")

/-! ## A client of the `IDevice` interface -/

/-- The two operations of `IDevice`, as a client calls them on a proxy. -/
inductive Call where
  | turnOn
  | turnOff
  deriving DecidableEq

/-- One call through the interface. -/
def Call.run : Call → DeviceProxy → String → Step DeviceProxy Unit
  | Call.turnOn, p, cout => p.turnOn cout
  | Call.turnOff, p, cout => p.turnOff cout

/-- A client that makes the calls of `calls` one after the other on the same
proxy, handling whatever each one throws and going on with the next; the
result lists how each call completed, then the proxy and the stream at the end. -/
def runCalls : List Call → DeviceProxy → String → List (Outcome Unit) × DeviceProxy × String
  | [], p, cout => ([], p, cout)
  | c :: cs, p, cout =>
    let s := c.run p cout
    let r := runCalls cs s.self s.cout
    (s.outcome :: r.1, r.2)

/-! ## Lemmas on `checkAccess` -/

theorem checkAccess_self (p : DeviceProxy) (cout : String) :
    (p.checkAccess cout).self = p := by
  unfold DeviceProxy.checkAccess
  split_ifs <;> rfl

theorem checkAccess_cout (p : DeviceProxy) (cout : String) :
    (p.checkAccess cout).cout = cout := by
  unfold DeviceProxy.checkAccess
  split_ifs <;> rfl

theorem checkAccess_not_admin (p : DeviceProxy) (cout : String) (h : p.userRole ≠ "Admin") :
    (p.checkAccess cout).outcome = Outcome.thrown AccessDenied := by
  unfold DeviceProxy.checkAccess
  simp [h, AccessDenied]

theorem checkAccess_offline (p : DeviceProxy) (cout : String) (hr : p.userRole = "Admin")
    (hn : p.isNetworkAvailable = false) :
    (p.checkAccess cout).outcome = Outcome.thrown ConnectivityError := by
  unfold DeviceProxy.checkAccess
  simp [hr, hn, ConnectivityError]

theorem checkAccess_pass (p : DeviceProxy) (cout : String) (hr : p.userRole = "Admin")
    (hn : p.isNetworkAvailable = true) :
    (p.checkAccess cout).outcome = Outcome.returned () := by
  unfold DeviceProxy.checkAccess
  simp [hr, hn]

/-! ## Lemmas on `turnOn` and `turnOff` -/

theorem turnOn_of_thrown (p : DeviceProxy) (cout : String) (e : Exception)
    (h : (p.checkAccess cout).outcome = Outcome.thrown e) :
    p.turnOn cout = { outcome := Outcome.thrown e, self := p, cout := cout } := by
  unfold DeviceProxy.turnOn
  simp only [h, checkAccess_self, checkAccess_cout]

theorem turnOff_of_thrown (p : DeviceProxy) (cout : String) (e : Exception)
    (h : (p.checkAccess cout).outcome = Outcome.thrown e) :
    p.turnOff cout = { outcome := Outcome.thrown e, self := p, cout := cout } := by
  unfold DeviceProxy.turnOff
  simp only [h, checkAccess_self, checkAccess_cout]

theorem turnOn_of_returned (p : DeviceProxy) (cout : String)
    (h : (p.checkAccess cout).outcome = Outcome.returned ()) :
    p.turnOn cout
      = { outcome := Outcome.returned (), self := p,
          cout := cout ++ linesOn p.realBulb.location } := by
  unfold DeviceProxy.turnOn
  simp only [h, checkAccess_self, checkAccess_cout, DeviceProxy.onRealBulb, LightBulb.turnOn,
    DeviceProxy.logAction, linesOn, endl, String.append_assoc]
  rfl

theorem turnOff_of_returned (p : DeviceProxy) (cout : String)
    (h : (p.checkAccess cout).outcome = Outcome.returned ()) :
    p.turnOff cout
      = { outcome := Outcome.returned (), self := p,
          cout := cout ++ linesOff p.realBulb.location } := by
  unfold DeviceProxy.turnOff
  simp only [h, checkAccess_self, checkAccess_cout, DeviceProxy.onRealBulb, LightBulb.turnOff,
    DeviceProxy.logAction, linesOff, endl, String.append_assoc]
  rfl

theorem access_denied_ne_connectivity : AccessDenied ≠ ConnectivityError := by
  decide

/-- Both failures are `runtime_error` objects: they share the class and differ in
the text `what()` returns. -/
theorem failures_share_class :
    AccessDenied.cls = ExceptionClass.runtime_error
      ∧ ConnectivityError.cls = ExceptionClass.runtime_error
      ∧ AccessDenied.what ≠ ConnectivityError.what := by
  decide

theorem turnOn_self (p : DeviceProxy) (cout : String) : (p.turnOn cout).self = p := by
  cases h : (p.checkAccess cout).outcome with
  | returned u => cases u; rw [turnOn_of_returned p cout h]
  | thrown e => rw [turnOn_of_thrown p cout e h]

theorem turnOff_self (p : DeviceProxy) (cout : String) : (p.turnOff cout).self = p := by
  cases h : (p.checkAccess cout).outcome with
  | returned u => cases u; rw [turnOff_of_returned p cout h]
  | thrown e => rw [turnOff_of_thrown p cout e h]

theorem run_self (c : Call) (p : DeviceProxy) (cout : String) : (c.run p cout).self = p := by
  cases c
  · exact turnOn_self p cout
  · exact turnOff_self p cout

/-- With the flag true the access check returns or throws `AccessDenied`. -/
theorem checkAccess_online (p : DeviceProxy) (cout : String)
    (hn : p.isNetworkAvailable = true) :
    (p.checkAccess cout).outcome = Outcome.returned ()
      ∨ (p.checkAccess cout).outcome = Outcome.thrown AccessDenied := by
  by_cases hr : p.userRole = "Admin"
  · exact Or.inl (checkAccess_pass p cout hr hn)
  · exact Or.inr (checkAccess_not_admin p cout hr)

theorem run_online (c : Call) (p : DeviceProxy) (cout : String)
    (hn : p.isNetworkAvailable = true) :
    (c.run p cout).outcome ≠ Outcome.thrown ConnectivityError := by
  rcases checkAccess_online p cout hn with h | h
  · cases c
    · simp [Call.run, turnOn_of_returned p cout h]
    · simp [Call.run, turnOff_of_returned p cout h]
  · have hne : AccessDenied ≠ ConnectivityError := access_denied_ne_connectivity
    cases c
    · simpa [Call.run, turnOn_of_thrown p cout _ h] using hne
    · simpa [Call.run, turnOff_of_thrown p cout _ h] using hne

theorem runCalls_length (calls : List Call) (p : DeviceProxy) (cout : String) :
    (runCalls calls p cout).1.length = calls.length := by
  induction calls generalizing p cout with
  | nil => rfl
  | cons c cs ih => simp [runCalls, ih]

theorem runCalls_online (calls : List Call) (p : DeviceProxy) (cout : String)
    (hn : p.isNetworkAvailable = true) :
    ∀ o ∈ (runCalls calls p cout).1, o ≠ Outcome.thrown ConnectivityError := by
  induction calls generalizing p cout with
  | nil => intro o ho; simp [runCalls] at ho
  | cons c cs ih =>
    intro o ho
    simp only [runCalls, List.mem_cons] at ho
    rcases ho with ho | ho
    · rw [ho]; exact run_online c p cout hn
    · refine ih (c.run p cout).self (c.run p cout).cout ?_ o ho
      rw [run_self]; exact hn

/-! ## Rejection of callers that are not `"Admin"` -/

/-- C1: for every location and every role that is not exactly "Admin", `turnOn`
on the proxy the constructor builds throws the access-denied error, whose
message is "Acesso negado: usuário não é Admin!", and leaves the output stream
exactly as it was: no lamp confirmation and no log line is written. -/
theorem turnOn_rejects_non_admin (loc r cout : String) (h : r ≠ "Admin") :
    ((DeviceProxy.ctor loc r).turnOn cout).outcome = Outcome.thrown AccessDenied
      ∧ AccessDenied.what = "Acesso negado: usuário não é Admin!"
      ∧ ((DeviceProxy.ctor loc r).turnOn cout).cout = cout := by
  have hc := checkAccess_not_admin (DeviceProxy.ctor loc r) cout h
  rw [turnOn_of_thrown _ cout _ hc]
  exact ⟨rfl, rfl, rfl⟩

/-- Instances of C1 at the empty role and at the case variants "admin" and "ADMIN". -/
theorem turnOn_rejects_non_admin_witness :
    (("" : String) ≠ "Admin"
        ∧ ((DeviceProxy.ctor "Sala" "").turnOn "").outcome = Outcome.thrown AccessDenied
        ∧ ((DeviceProxy.ctor "Sala" "").turnOn "").cout = "")
      ∧ (("admin" : String) ≠ "Admin"
        ∧ ((DeviceProxy.ctor "Sala" "admin").turnOn "").outcome = Outcome.thrown AccessDenied
        ∧ ((DeviceProxy.ctor "Sala" "admin").turnOn "").cout = "")
      ∧ (("ADMIN" : String) ≠ "Admin"
        ∧ ((DeviceProxy.ctor "Sala" "ADMIN").turnOn "").outcome = Outcome.thrown AccessDenied
        ∧ ((DeviceProxy.ctor "Sala" "ADMIN").turnOn "").cout = "") :=
  ⟨⟨by decide, (turnOn_rejects_non_admin "Sala" "" "" (by decide)).1,
      (turnOn_rejects_non_admin "Sala" "" "" (by decide)).2.2⟩,
    ⟨by decide, (turnOn_rejects_non_admin "Sala" "admin" "" (by decide)).1,
      (turnOn_rejects_non_admin "Sala" "admin" "" (by decide)).2.2⟩,
    ⟨by decide, (turnOn_rejects_non_admin "Sala" "ADMIN" "" (by decide)).1,
      (turnOn_rejects_non_admin "Sala" "ADMIN" "" (by decide)).2.2⟩⟩

/-! ## The successful call -/

/-- C2: for every location, `turnOn` on a proxy with role "Admin" and network
flag true returns without an exception, and what it appends to the output
stream is exactly the lamp confirmation line "Lâmpada em <loc> ligada!" followed
by the log line "[LOG] Ação 'Ligar' registrada.", each ended by a newline. -/
theorem turnOn_admin_online (loc cout : String) :
    (DeviceProxy.turnOn
        { realBulb := { location := loc }, userRole := "Admin", isNetworkAvailable := true }
        cout).outcome = Outcome.returned ()
      ∧ (DeviceProxy.turnOn
        { realBulb := { location := loc }, userRole := "Admin", isNetworkAvailable := true }
        cout).cout
          = cout ++ ("Lâmpada em " ++ loc ++ " ligada!" ++ "\n"
              ++ ("[LOG] Ação 'Ligar' registrada." ++ "\n")) := by
  have hc := checkAccess_pass
    { realBulb := { location := loc }, userRole := "Admin", isNetworkAvailable := true }
    cout rfl rfl
  rw [turnOn_of_returned _ cout hc]
  exact ⟨rfl, rfl⟩

/-- C3: in every proxy state `turnOff` completes as `turnOn` does (it returns in
the same states, and throws in the same states the same exception); when it
throws it writes nothing; when it returns it has appended exactly the lamp
confirmation "Lâmpada em <loc> desligada!" followed by the log line
"[LOG] Ação 'Desligar' registrada."; and it does return when the role is "Admin"
and the flag is true. -/
theorem turnOff_symmetric (p : DeviceProxy) (cout : String) :
    (p.turnOff cout).outcome = (p.turnOn cout).outcome
      ∧ (∀ e, (p.turnOff cout).outcome = Outcome.thrown e → (p.turnOff cout).cout = cout)
      ∧ ((p.turnOff cout).outcome = Outcome.returned () →
          (p.turnOff cout).cout
            = cout ++ ("Lâmpada em " ++ p.realBulb.location ++ " desligada!" ++ "\n"
                ++ ("[LOG] Ação 'Desligar' registrada." ++ "\n")))
      ∧ (p.userRole = "Admin" → p.isNetworkAvailable = true →
          (p.turnOff cout).outcome = Outcome.returned ()) := by
  cases h : (p.checkAccess cout).outcome with
  | returned u =>
    cases u
    rw [turnOff_of_returned p cout h, turnOn_of_returned p cout h]
    exact ⟨rfl, fun e he => (by cases he), fun _ => rfl, fun _ _ => rfl⟩
  | thrown e =>
    rw [turnOff_of_thrown p cout e h, turnOn_of_thrown p cout e h]
    refine ⟨rfl, fun _ _ => rfl, fun he => (by cases he), fun hr hn => ?_⟩
    rw [checkAccess_pass p cout hr hn] at h
    cases h

/-! ## Order of the two checks -/

/-- C4: for a role that is not "Admin" the access check fails on the role before
it looks at the network flag: whatever the flag, `turnOn` and `turnOff` throw
the access-denied error, not the connectivity error, and write nothing; so two
proxies that differ only in the flag complete in the same way and leave the same
output. -/
theorem non_admin_hides_connectivity (loc r cout : String) (h : r ≠ "Admin") :
    (∀ flag : Bool,
        (DeviceProxy.turnOn ⟨⟨loc⟩, r, flag⟩ cout).outcome = Outcome.thrown AccessDenied
        ∧ (DeviceProxy.turnOn ⟨⟨loc⟩, r, flag⟩ cout).outcome ≠ Outcome.thrown ConnectivityError
        ∧ (DeviceProxy.turnOn ⟨⟨loc⟩, r, flag⟩ cout).cout = cout
        ∧ (DeviceProxy.turnOff ⟨⟨loc⟩, r, flag⟩ cout).outcome = Outcome.thrown AccessDenied
        ∧ (DeviceProxy.turnOff ⟨⟨loc⟩, r, flag⟩ cout).outcome ≠ Outcome.thrown ConnectivityError
        ∧ (DeviceProxy.turnOff ⟨⟨loc⟩, r, flag⟩ cout).cout = cout)
      ∧ (DeviceProxy.turnOn ⟨⟨loc⟩, r, true⟩ cout).outcome
          = (DeviceProxy.turnOn ⟨⟨loc⟩, r, false⟩ cout).outcome
      ∧ (DeviceProxy.turnOn ⟨⟨loc⟩, r, true⟩ cout).cout
          = (DeviceProxy.turnOn ⟨⟨loc⟩, r, false⟩ cout).cout
      ∧ (DeviceProxy.turnOff ⟨⟨loc⟩, r, true⟩ cout).outcome
          = (DeviceProxy.turnOff ⟨⟨loc⟩, r, false⟩ cout).outcome
      ∧ (DeviceProxy.turnOff ⟨⟨loc⟩, r, true⟩ cout).cout
          = (DeviceProxy.turnOff ⟨⟨loc⟩, r, false⟩ cout).cout := by
  have key : ∀ flag : Bool,
      DeviceProxy.turnOn ⟨⟨loc⟩, r, flag⟩ cout
          = { outcome := Outcome.thrown AccessDenied, self := ⟨⟨loc⟩, r, flag⟩, cout := cout }
        ∧ DeviceProxy.turnOff ⟨⟨loc⟩, r, flag⟩ cout
          = { outcome := Outcome.thrown AccessDenied, self := ⟨⟨loc⟩, r, flag⟩, cout := cout } :=
    fun flag =>
      ⟨turnOn_of_thrown _ cout _ (checkAccess_not_admin ⟨⟨loc⟩, r, flag⟩ cout h),
        turnOff_of_thrown _ cout _ (checkAccess_not_admin ⟨⟨loc⟩, r, flag⟩ cout h)⟩
  have hne : Outcome.thrown (α := Unit) AccessDenied ≠ Outcome.thrown ConnectivityError := by
    decide
  refine ⟨fun flag => ?_, ?_, ?_, ?_, ?_⟩
  · rw [(key flag).1, (key flag).2]
    exact ⟨rfl, hne, rfl, rfl, hne, rfl⟩
  · rw [(key true).1, (key false).1]
  · rw [(key true).1, (key false).1]
  · rw [(key true).2, (key false).2]
  · rw [(key true).2, (key false).2]

/-- An instance of C4: the guest of the demo, with the network up and down. -/
theorem non_admin_hides_connectivity_witness :
    ("Convidado" : String) ≠ "Admin"
      ∧ (DeviceProxy.turnOn ⟨⟨"Sala"⟩, "Convidado", true⟩ "").outcome
          = (DeviceProxy.turnOn ⟨⟨"Sala"⟩, "Convidado", false⟩ "").outcome
      ∧ (DeviceProxy.turnOn ⟨⟨"Sala"⟩, "Convidado", false⟩ "").outcome
          = Outcome.thrown AccessDenied :=
  ⟨by decide, (non_admin_hides_connectivity "Sala" "Convidado" "" (by decide)).2.1,
    ((non_admin_hides_connectivity "Sala" "Convidado" "" (by decide)).1 false).1⟩

/-- C5: for every location, on a proxy with role "Admin" and network flag false,
`turnOn` and `turnOff` throw the connectivity error (message "Erro de conexão
com a lâmpada!") and write nothing, neither the lamp confirmation nor the log
line; and that error is not the access-denied error: the two exceptions differ,
in the text `what()` returns, so a caller can tell them apart. -/
theorem admin_offline_connectivity_error (loc cout : String) :
    (DeviceProxy.turnOn ⟨⟨loc⟩, "Admin", false⟩ cout).outcome
        = Outcome.thrown ConnectivityError
      ∧ (DeviceProxy.turnOn ⟨⟨loc⟩, "Admin", false⟩ cout).cout = cout
      ∧ (DeviceProxy.turnOff ⟨⟨loc⟩, "Admin", false⟩ cout).outcome
        = Outcome.thrown ConnectivityError
      ∧ (DeviceProxy.turnOff ⟨⟨loc⟩, "Admin", false⟩ cout).cout = cout
      ∧ ConnectivityError.what = "Erro de conexão com a lâmpada!"
      ∧ ConnectivityError ≠ AccessDenied
      ∧ ConnectivityError.what ≠ AccessDenied.what := by
  have hc := checkAccess_offline ⟨⟨loc⟩, "Admin", false⟩ cout rfl rfl
  rw [turnOn_of_thrown _ cout _ hc, turnOff_of_thrown _ cout _ hc]
  exact ⟨rfl, rfl, rfl, rfl, rfl, by decide, by decide⟩

/-! ## Repeated calls -/

/-- C6: for every location, two `turnOn` calls in succession on the proxy built
by `DeviceProxy(loc, "Admin")` both return; the second completes as the first
did and appends the same two lines the first appended. -/
theorem turnOn_twice_admin (loc cout : String) :
    ((DeviceProxy.ctor loc "Admin").turnOn cout).outcome = Outcome.returned ()
      ∧ ((DeviceProxy.ctor loc "Admin").turnOn cout).cout
          = cout ++ ("Lâmpada em " ++ loc ++ " ligada!" ++ "\n"
              ++ ("[LOG] Ação 'Ligar' registrada." ++ "\n"))
      ∧ (((DeviceProxy.ctor loc "Admin").turnOn cout).self.turnOn
            ((DeviceProxy.ctor loc "Admin").turnOn cout).cout).outcome = Outcome.returned ()
      ∧ (((DeviceProxy.ctor loc "Admin").turnOn cout).self.turnOn
            ((DeviceProxy.ctor loc "Admin").turnOn cout).cout).cout
          = ((DeviceProxy.ctor loc "Admin").turnOn cout).cout
              ++ ("Lâmpada em " ++ loc ++ " ligada!" ++ "\n"
                ++ ("[LOG] Ação 'Ligar' registrada." ++ "\n"))
      ∧ (((DeviceProxy.ctor loc "Admin").turnOn cout).self.turnOn
            ((DeviceProxy.ctor loc "Admin").turnOn cout).cout).outcome
          = ((DeviceProxy.ctor loc "Admin").turnOn cout).outcome := by
  have first := turnOn_of_returned (DeviceProxy.ctor loc "Admin") cout
    (checkAccess_pass _ cout rfl rfl)
  rw [first]
  have second := turnOn_of_returned (DeviceProxy.ctor loc "Admin")
    (cout ++ linesOn (DeviceProxy.ctor loc "Admin").realBulb.location)
    (checkAccess_pass _ _ rfl rfl)
  rw [second]
  exact ⟨rfl, rfl, rfl, rfl, rfl⟩

/-! ## The demo -/

/-- C7: `main` returns 0, no exception leaves it, and what it writes, on the
empty stream and after any earlier content alike, is exactly five lines: the
handled failure "Erro: Acesso negado: usuário não é Admin!" (nothing for "Sala"),
then the confirmation and log line of `turnOn` and of `turnOff` for "Quarto". -/
theorem main_output :
    main "" = (Outcome.returned 0,
        "Erro: Acesso negado: usuário não é Admin!\n"
          ++ "Lâmpada em Quarto ligada!\n"
          ++ "[LOG] Ação 'Ligar' registrada.\n"
          ++ "Lâmpada em Quarto desligada!\n"
          ++ "[LOG] Ação 'Desligar' registrada.\n")
      ∧ ∀ cout : String, main cout = (Outcome.returned 0,
        cout ++ ("Erro: Acesso negado: usuário não é Admin!\n"
          ++ "Lâmpada em Quarto ligada!\n"
          ++ "[LOG] Ação 'Ligar' registrada.\n"
          ++ "Lâmpada em Quarto desligada!\n"
          ++ "[LOG] Ação 'Desligar' registrada.\n")) := by
  refine ⟨by decide, fun cout => ?_⟩
  have guest := turnOn_of_thrown (DeviceProxy.ctor "Sala" "Convidado") cout AccessDenied
    (checkAccess_not_admin _ cout (by decide))
  have hOn := fun out : String => turnOn_of_returned (DeviceProxy.ctor "Quarto" "Admin") out
    (checkAccess_pass _ out rfl rfl)
  have hOff := fun out : String => turnOff_of_returned (DeviceProxy.ctor "Quarto" "Admin") out
    (checkAccess_pass _ out rfl rfl)
  unfold main
  simp only [guest, hOn, hOff]
  simp only [AccessDenied, runtime_error, ExceptionClass.derivesFrom, if_true, linesOn, linesOff,
    DeviceProxy.ctor, LightBulb.ctor, endl, String.append_assoc]
  rfl

/-! ## The network flag stays true -/

/-- C8: the constructor sets the network flag to true; `checkAccess`, `turnOn`,
`turnOff` and `logAction` each leave a true flag true; hence for every location,
every role and every finite sequence of `turnOn`/`turnOff` calls on a proxy built
by the constructor, every call of the sequence is made and none of them throws
the connectivity error. -/
theorem connectivity_error_unreachable :
    (∀ loc role : String, (DeviceProxy.ctor loc role).isNetworkAvailable = true)
      ∧ (∀ (p : DeviceProxy) (action cout : String), p.isNetworkAvailable = true →
          (p.checkAccess cout).self.isNetworkAvailable = true
          ∧ (p.turnOn cout).self.isNetworkAvailable = true
          ∧ (p.turnOff cout).self.isNetworkAvailable = true
          ∧ (p.logAction action cout).self.isNetworkAvailable = true)
      ∧ (∀ (loc role cout : String) (calls : List Call),
          (runCalls calls (DeviceProxy.ctor loc role) cout).1.length = calls.length
          ∧ ∀ o ∈ (runCalls calls (DeviceProxy.ctor loc role) cout).1,
              o ≠ Outcome.thrown ConnectivityError) := by
  refine ⟨fun _ _ => rfl, fun p action cout hn => ?_, fun loc role cout calls => ?_⟩
  · rw [checkAccess_self, turnOn_self, turnOff_self]
    exact ⟨hn, hn, hn, hn⟩
  · exact ⟨runCalls_length calls _ cout, runCalls_online calls _ cout rfl⟩

/-! ## Where failures come from -/

/-- C9: in every proxy state `turnOn`, and likewise `turnOff`, throws exactly when
the role is not "Admin" or the network flag is false, and completes exactly as
`checkAccess` completes in that state, so a thrown exception is the one
`checkAccess` throws; the calls on the bulb and `logAction` always return; hence
the operation returns exactly when the role is "Admin" and the flag is true,
whatever the location. -/
theorem failures_only_from_checkAccess (p : DeviceProxy) (cout : String) :
    ((∃ e, (p.turnOn cout).outcome = Outcome.thrown e)
        ↔ (p.userRole ≠ "Admin" ∨ p.isNetworkAvailable = false))
      ∧ ((∃ e, (p.turnOff cout).outcome = Outcome.thrown e)
        ↔ (p.userRole ≠ "Admin" ∨ p.isNetworkAvailable = false))
      ∧ (p.turnOn cout).outcome = (p.checkAccess cout).outcome
      ∧ (p.turnOff cout).outcome = (p.checkAccess cout).outcome
      ∧ (∀ (b : LightBulb) (out : String),
          (b.turnOn out).outcome = Outcome.returned ()
          ∧ (b.turnOff out).outcome = Outcome.returned ())
      ∧ (∀ (q : DeviceProxy) (action out : String),
          (q.logAction action out).outcome = Outcome.returned ())
      ∧ ((p.turnOn cout).outcome = Outcome.returned ()
        ↔ (p.userRole = "Admin" ∧ p.isNetworkAvailable = true))
      ∧ ((p.turnOff cout).outcome = Outcome.returned ()
        ↔ (p.userRole = "Admin" ∧ p.isNetworkAvailable = true))
      ∧ (∀ loc : String,
          (DeviceProxy.turnOn { p with realBulb := { location := loc } } cout).outcome
            = (p.turnOn cout).outcome
          ∧ (DeviceProxy.turnOff { p with realBulb := { location := loc } } cout).outcome
            = (p.turnOff cout).outcome) := by
  have hOn : ∀ q : DeviceProxy, (q.turnOn cout).outcome = (q.checkAccess cout).outcome := by
    intro q
    cases h : (q.checkAccess cout).outcome with
    | returned u => cases u; rw [turnOn_of_returned q cout h]
    | thrown e => rw [turnOn_of_thrown q cout e h]
  have hOff : ∀ q : DeviceProxy, (q.turnOff cout).outcome = (q.checkAccess cout).outcome := by
    intro q
    cases h : (q.checkAccess cout).outcome with
    | returned u => cases u; rw [turnOff_of_returned q cout h]
    | thrown e => rw [turnOff_of_thrown q cout e h]
  have hLoc : ∀ loc : String,
      (DeviceProxy.checkAccess { p with realBulb := { location := loc } } cout).outcome
        = (p.checkAccess cout).outcome := by
    intro loc
    unfold DeviceProxy.checkAccess
    split_ifs <;> rfl
  have hThrows : (∃ e, (p.checkAccess cout).outcome = Outcome.thrown e)
      ↔ (p.userRole ≠ "Admin" ∨ p.isNetworkAvailable = false) := by
    by_cases hr : p.userRole = "Admin"
    · cases hn : p.isNetworkAvailable with
      | true => simp [checkAccess_pass p cout hr hn, hr]
      | false => simp [checkAccess_offline p cout hr hn]
    · simp [checkAccess_not_admin p cout hr, hr]
  have hReturns : (p.checkAccess cout).outcome = Outcome.returned ()
      ↔ (p.userRole = "Admin" ∧ p.isNetworkAvailable = true) := by
    by_cases hr : p.userRole = "Admin"
    · cases hn : p.isNetworkAvailable with
      | true => simp [checkAccess_pass p cout hr hn, hr]
      | false => simp [checkAccess_offline p cout hr hn]
    · simp [checkAccess_not_admin p cout hr, hr]
  refine ⟨?_, ?_, hOn p, hOff p, fun _ _ => ⟨rfl, rfl⟩, fun _ _ _ => rfl, ?_, ?_, fun loc => ?_⟩
  · rw [hOn p]; exact hThrows
  · rw [hOff p]; exact hThrows
  · rw [hOn p]; exact hReturns
  · rw [hOff p]; exact hReturns
  · rw [hOn, hOff, hOn p, hOff p, hLoc loc]
    exact ⟨rfl, rfl⟩

/-! ## Frame -/

/-- C10: `checkAccess`, `turnOn`, `turnOff` and `logAction` leave the proxy as
it was, whether they return or throw: the proxy after the call equals the proxy
before it, so the role, the network flag and the location of the owned bulb
keep their values; the bulb's own `turnOn` and `turnOff` leave the bulb as it
was. -/
theorem operations_preserve_state (p : DeviceProxy) (action cout : String) :
    ((p.checkAccess cout).self = p
        ∧ (p.turnOn cout).self = p
        ∧ (p.turnOff cout).self = p
        ∧ (p.logAction action cout).self = p)
      ∧ ((p.turnOn cout).self.userRole = p.userRole
        ∧ (p.turnOn cout).self.isNetworkAvailable = p.isNetworkAvailable
        ∧ (p.turnOn cout).self.realBulb.location = p.realBulb.location)
      ∧ ((p.turnOff cout).self.userRole = p.userRole
        ∧ (p.turnOff cout).self.isNetworkAvailable = p.isNetworkAvailable
        ∧ (p.turnOff cout).self.realBulb.location = p.realBulb.location)
      ∧ ((p.realBulb.turnOn cout).self = p.realBulb
        ∧ (p.realBulb.turnOff cout).self = p.realBulb) := by
  rw [checkAccess_self, turnOn_self, turnOff_self]
  exact ⟨⟨rfl, rfl, rfl, rfl⟩, ⟨rfl, rfl, rfl⟩, ⟨rfl, rfl, rfl⟩, ⟨rfl, rfl⟩⟩

end Proxy
